import Mathlib

/-!
Shallow embedding of `network_importer/adapters/netbox_api/models.py`:
the NetBox reconciliation adapter (attribute translation and the
create/update/delete apply operations for Interface, IPAddress, Vlan and
Cable).

Modelling conventions:
* Python attribute dictionaries are association lists `PyDict` over an
  explicit value type `PyVal`; lists in this adapter are flat lists of
  scalars (VLAN identifier lists), so `PyVal.list` carries `List PyScalar`.
* The shared DSync registry (`self.dsync`) is a record of lookup tables;
  `dsync.get` calls become lookups, and the in-place mutation of registry
  objects (the connected-endpoint marker set by cable creation) becomes an
  explicit registry update threaded through the operation's result.
* Remote-client traffic is recorded as an explicit `RemoteCall` trace and
  log emission as a `LogEvent` trace, returned alongside each operation's
  result; an operation that raises a Python exception returns
  `Except.error` (the recorded trace of an aborted operation is discarded,
  as the exception propagates).
* Remote-side behaviour that the adapter reads (the id assigned by a
  successful create, whether the create call raises pynetbox's
  RequestError) is passed in as explicit parameters.
-/

/-- Scalar Python values stored in attribute dictionaries. -/
inductive PyScalar where
  | none
  | str (s : String)
  | int (n : Int)
  | bool (b : Bool)
  deriving DecidableEq

/-- Python values stored in attribute dictionaries and remote-call
parameters.  The lists this adapter stores (`allowed_vlans`,
`tagged_vlans`) are flat lists of scalars. -/
inductive PyVal where
  | none
  | str (s : String)
  | int (n : Int)
  | bool (b : Bool)
  | list (xs : List PyScalar)
  deriving DecidableEq

/-- Embed a scalar back into the value type. -/
def PyScalar.toVal : PyScalar → PyVal
  | .none => .none
  | .str s => .str s
  | .int n => .int n
  | .bool b => .bool b

/-- Python truthiness of a value. -/
def PyVal.truthy : PyVal → Bool
  | .none => false
  | .str s => !s.isEmpty
  | .int n => n != 0
  | .bool b => b
  | .list xs => !xs.isEmpty

/-- Truthiness of an `Optional[str]` field (`None` and `""` are falsy). -/
def optStrTruthy : Option String → Bool
  | Option.none => false
  | Option.some s => !s.isEmpty

/-- An `Optional[int]` placed into a parameter dictionary. -/
def optIntVal : Option Int → PyVal
  | Option.none => PyVal.none
  | Option.some n => PyVal.int n

/-- A Python `dict` with string keys (no duplicate keys in this adapter). -/
abbrev PyDict := List (String × PyVal)

/-- Python `d[k]` as an optional lookup (first matching key). -/
def dictLookup : PyDict → String → Option PyVal
  | [], _ => Option.none
  | (k, v) :: rest, key => if k = key then Option.some v else dictLookup rest key

/-- Python `k in d`. -/
def dictHasKey (d : PyDict) (k : String) : Bool :=
  (dictLookup d k).isSome

/-- Python `k in d and d[k]` (membership then truthiness). -/
def dictTruthy (d : PyDict) (k : String) : Bool :=
  match dictLookup d k with
  | Option.some v => v.truthy
  | Option.none => false

/-- Dict assignment `d[k] = v`. -/
def dictSet (d : PyDict) (k : String) (v : PyVal) : PyDict :=
  match d with
  | [] => [(k, v)]
  | (k', v') :: rest => if k' = k then (k, v) :: rest else (k', v') :: dictSet rest k v

/-- Python dict equality `a == b`: the same keys bound to equal values
(order-insensitive). -/
def dictEq (a b : PyDict) : Bool :=
  a.all (fun kv => dictLookup b kv.1 == Option.some kv.2) &&
  b.all (fun kv => dictLookup a kv.1 == Option.some kv.2)

/-- Iterating a Python value (only lists and strings are iterable here);
`Option.none` for a non-iterable value (a `TypeError` at the use site). -/
def pyIterScalars : PyVal → Option (List PyScalar)
  | .list xs => Option.some xs
  | .str s => Option.some (s.data.map fun c => PyScalar.str (String.mk [c]))
  | _ => Option.none

/-- Python exceptions this adapter can raise. -/
inductive PyErr where
  | attributeError
  | keyError
  | typeError
  deriving DecidableEq

/-- Dereferencing an attribute of a possibly-`None` object:
`None.attr` raises `AttributeError`. -/
def pyDeref {α : Type} : Option α → Except PyErr α
  | Option.some a => Except.ok a
  | Option.none => Except.error PyErr.attributeError

/-! ## Entity model (`Netbox*` classes: local entities with a remote id) -/

/-- Entity `NetboxSite`: a site with its optional remote id. -/
structure NetboxSite where
  name : String
  remote_id : Option Int
  deriving DecidableEq

/-- Entity `NetboxDevice`: a device with its optional remote id and optional
primary/management IP. -/
structure NetboxDevice where
  name : String
  remote_id : Option Int
  primary_ip : Option String
  deriving DecidableEq

/-- Entity `NetboxVlan`: identity (site name, vid), optional remote id, and the
recorded attribute set (`get_attrs()` of the DSync base model). -/
structure NetboxVlan where
  site_name : String
  vid : Int
  remote_id : Option Int
  attrs : PyDict
  deriving DecidableEq

/-- Entity `NetboxInterface`: identity (device name, interface name), optional
remote id, the connected-endpoint marker, the addresses of the IPs carried
by the interface, and the recorded attribute set (`get_attrs()`). -/
structure NetboxInterface where
  device_name : String
  name : String
  remote_id : Option Int
  connected_endpoint_type : Option String
  ips : List String
  attrs : PyDict
  deriving DecidableEq

/-- Entity `NetboxIPAddress`: the address, the optional owning device name, and
the optional remote id. -/
structure NetboxIPAddress where
  address : String
  device_name : Option String
  remote_id : Option Int
  deriving DecidableEq

/-- Entity `NetboxCable`: the four-tuple identity and the optional remote id. -/
structure NetboxCable where
  device_a_name : String
  interface_a_name : String
  device_z_name : String
  interface_z_name : String
  remote_id : Option Int
  deriving DecidableEq

/-- The pynetbox cable record fetched from the remote client by
`dsync.netbox.dcim.cables.get` (an opaque remote object, distinct from the
local `NetboxCable` entity). -/
structure RemoteCableRecord where
  id : Option Int
  deriving DecidableEq

/-! ## The reconciliation Context (`dsync` registry) -/

/-- Lookup in an association list. -/
def assocLookup {κ α : Type} [DecidableEq κ] : List (κ × α) → κ → Option α
  | [], _ => Option.none
  | (k, a) :: rest, key => if k = key then Option.some a else assocLookup rest key

/-- Modify the entry at a key, when present (mutating a registry object in
place); absent keys are untouched. -/
def assocModify {κ α : Type} [DecidableEq κ] (l : List (κ × α)) (key : κ) (f : α → α) :
    List (κ × α) :=
  match l with
  | [] => []
  | (k, a) :: rest =>
      if k = key then (k, f a) :: rest else (k, a) :: assocModify rest key f

/-- The shared DSync registry (Context): per-type lookup tables plus the
remote-side interface directory consulted by `get_intf_from_netbox`.
`interfacesByUid` indexes the same interface registry by the unique-id
value used for LAG parent lookups. -/
structure DSync where
  name : String
  sites : List (String × NetboxSite)
  devices : List (String × NetboxDevice)
  vlans : List (PyVal × NetboxVlan)
  interfaces : List ((String × String) × NetboxInterface)
  interfacesByUid : List (PyVal × NetboxInterface)
  netboxInterfaces : List ((String × String) × NetboxInterface)
  deriving DecidableEq

/-- Lookup `dsync.get(dsync.site, identifier=name)`. -/
def DSync.getSite (ds : DSync) (siteName : String) : Option NetboxSite :=
  assocLookup ds.sites siteName

/-- Lookup `dsync.get(dsync.device, identifier=name)`. -/
def DSync.getDevice (ds : DSync) (deviceName : String) : Option NetboxDevice :=
  assocLookup ds.devices deviceName

/-- Lookup `dsync.get(dsync.vlan, identifier=vlan_uid)`. -/
def DSync.getVlan (ds : DSync) (vlan_uid : PyVal) : Option NetboxVlan :=
  assocLookup ds.vlans vlan_uid

/-- Lookup `dsync.get(dsync.interface, identifier=dict(device_name=.., name=..))`. -/
def DSync.getInterface (ds : DSync) (deviceName intfName : String) :
    Option NetboxInterface :=
  assocLookup ds.interfaces (deviceName, intfName)

/-- Lookup `dsync.get(dsync.interface, identifier=uid)` (LAG parent lookup). -/
def DSync.getInterfaceByUid (ds : DSync) (uid : PyVal) : Option NetboxInterface :=
  assocLookup ds.interfacesByUid uid

/-- Remote lookup `dsync.get_intf_from_netbox(device_name, intf_name)`: the fallback
remote lookup used by cable creation. -/
def DSync.get_intf_from_netbox (ds : DSync) (deviceName intfName : String) :
    Option NetboxInterface :=
  assocLookup ds.netboxInterfaces (deviceName, intfName)

/-- Assignment `interface.connected_endpoint_type = "dcim.interface"` on a registry
object: visible to later lookups in the same run; a no-op on the registry
when the interface was not registered under that identity (the fallback
fetch returns a fresh object outside the registry). -/
def DSync.setConnectedEndpoint (ds : DSync) (deviceName intfName : String) : DSync :=
  { ds with
    interfaces := assocModify ds.interfaces (deviceName, intfName)
      (fun i => { i with connected_endpoint_type := Option.some "dcim.interface" }) }

/-! ## Remote client traffic and logging -/

/-- One remote-client call, as recorded in an operation's trace. -/
inductive RemoteCall where
  | intfCreate (params : PyDict)
  | intfGet (id : Option Int)
  | intfUpdate (id : Option Int) (data : PyDict)
  | intfDelete (id : Option Int)
  | ipGet (id : Option Int)
  | ipDelete (id : Option Int)
  | vlanCreate (vid : Int) (vlanName : PyVal) (site : Option Int)
  | vlanGet (id : Option Int)
  | vlanUpdate (id : Option Int) (data : PyDict)
  | cableCreate (termination_a : Option Int) (termination_z : Option Int)
  | cableGet (id : Option Int)
  | cableDelete (id : Option Int)
  | intfFromNetbox (deviceName : String) (intfName : String)
  deriving DecidableEq

/-- One log emission. -/
inductive LogEvent where
  | warning (msg : String)
  | info (msg : String)
  | debug (msg : String)
  deriving DecidableEq

/-- The outcome of an apply operation: its Python return value plus the
remote-call and log traces it produced. -/
structure OpResult (α : Type) where
  result : α
  calls : List RemoteCall
  logs : List LogEvent
  deriving DecidableEq

/-! ## Attribute Translator (`NetboxInterface.translate_attrs_for_netbox`) -/

/-- Inner helper `convert_vlan_to_nid`: Context lookup of a VLAN by
identifier; its remote id when found (a found model object is always
truthy), `None` otherwise. -/
def convert_vlan_to_nid (ds : DSync) (vlan_uid : PyVal) : PyScalar :=
  match ds.getVlan vlan_uid with
  | Option.some vlan =>
      match vlan.remote_id with
      | Option.some n => PyScalar.int n
      | Option.none => PyScalar.none
  | Option.none => PyScalar.none

/-- Type inference block: `is_lag` wins over `is_virtual`, default
`"other"`. -/
def tr_type (attrs : PyDict) (p : PyDict) : PyDict :=
  if dictHasKey attrs "is_lag" && dictTruthy attrs "is_lag" then
    dictSet p "type" (PyVal.str "lag")
  else if dictHasKey attrs "is_virtual" && dictTruthy attrs "is_virtual" then
    dictSet p "type" (PyVal.str "virtual")
  else
    dictSet p "type" (PyVal.str "other")

/-- MTU passthrough: only when the key is present. -/
def tr_mtu (attrs : PyDict) (p : PyDict) : PyDict :=
  match dictLookup attrs "mtu" with
  | Option.some v => dictSet p "mtu" v
  | Option.none => p

/-- Description block: `attrs["description"] or ""` when the key is
present. -/
def tr_description (attrs : PyDict) (p : PyDict) : PyDict :=
  match dictLookup attrs "description" with
  | Option.some v => dictSet p "description" (if v.truthy then v else PyVal.str "")
  | Option.none => p

/-- Switchport-mode block: `"ACCESS"` sets `mode = "access"`,
`"TRUNK"` sets `switchport_mode = "tagged"`. -/
def tr_switchport (attrs : PyDict) (p : PyDict) : PyDict :=
  if dictLookup attrs "switchport_mode" == Option.some (PyVal.str "ACCESS") then
    dictSet p "mode" (PyVal.str "access")
  else if dictLookup attrs "switchport_mode" == Option.some (PyVal.str "TRUNK") then
    dictSet p "switchport_mode" (PyVal.str "tagged")
  else
    p

/-- The untagged-VLAN half of the VLAN block: it evaluates
`attrs["access_vlan"]` whenever `attrs["mode"]` is `"TRUNK"` or
`"ACCESS"`, so an absent `access_vlan` key raises `KeyError` here. -/
def tr_untagged (ds : DSync) (attrs : PyDict) (p : PyDict) : Except PyErr PyDict :=
  if dictLookup attrs "mode" == Option.some (PyVal.str "TRUNK") ||
     dictLookup attrs "mode" == Option.some (PyVal.str "ACCESS") then
    match dictLookup attrs "access_vlan" with
    | Option.none => Except.error PyErr.keyError
    | Option.some av =>
        if av.truthy then
          Except.ok (dictSet p "untagged_vlan" (convert_vlan_to_nid ds av).toVal)
        else
          Except.ok (dictSet p "untagged_vlan" PyVal.none)
  else Except.ok p

/-- The tagged-VLAN half of the block (its `elif` guards `allowed_vlans`
with a membership test, so no `KeyError` arises here). -/
def tr_tagged (ds : DSync) (attrs : PyDict) (p : PyDict) : Except PyErr PyDict :=
  if dictLookup attrs "mode" == Option.some (PyVal.str "TRUNK") ||
     dictLookup attrs "mode" == Option.some (PyVal.str "L3_SUB_VLAN") then
    match dictLookup attrs "allowed_vlans" with
    | Option.some av =>
        if av.truthy then
          match pyIterScalars av with
          | Option.some vs =>
              Except.ok (dictSet p "tagged_vlans"
                (PyVal.list (vs.map fun v => convert_vlan_to_nid ds v.toVal)))
          | Option.none => Except.error PyErr.typeError
        else Except.ok (dictSet p "tagged_vlans" (PyVal.list []))
    | Option.none => Except.ok (dictSet p "tagged_vlans" (PyVal.list []))
  else Except.ok p

/-- The VLAN block, gated by `config.SETTINGS.main.import_vlans != "no"`:
the untagged half, then the tagged half. -/
def tr_vlans (import_vlans : String) (ds : DSync) (attrs : PyDict) (p : PyDict) :
    Except PyErr PyDict :=
  if import_vlans ≠ "no" then
    match tr_untagged ds attrs p with
    | Except.error e => Except.error e
    | Except.ok p1 => tr_tagged ds attrs p1
  else Except.ok p

/-- LAG block: a truthy `is_lag_member` reads `attrs["parent"]`
(`KeyError` when absent) and dereferences the Context lookup of the
parent interface with no `None` check (`AttributeError` when the parent
is not registered); an explicitly falsy `is_lag_member` clears the
field. -/
def tr_lag (ds : DSync) (attrs : PyDict) (p : PyDict) : Except PyErr PyDict :=
  if dictHasKey attrs "is_lag_member" && dictTruthy attrs "is_lag_member" then
    match dictLookup attrs "parent" with
    | Option.none => Except.error PyErr.keyError
    | Option.some parentUid =>
        match ds.getInterfaceByUid parentUid with
        | Option.none => Except.error PyErr.attributeError
        | Option.some parent_interface =>
            Except.ok (dictSet p "lag" (optIntVal parent_interface.remote_id))
  else if dictHasKey attrs "is_lag_member" && !dictTruthy attrs "is_lag_member" then
    Except.ok (dictSet p "lag" PyVal.none)
  else Except.ok p

/-- Method `NetboxInterface.translate_attrs_for_netbox`: build the NetBox
parameter dictionary from a candidate attribute set.  Starts by
dereferencing the owning device's Context lookup (an unregistered device
raises `AttributeError`), then applies the blocks in source order. -/
def NetboxInterface.translate_attrs_for_netbox (import_vlans : String) (ds : DSync)
    (self : NetboxInterface) (attrs : PyDict) : Except PyErr PyDict :=
  match ds.getDevice self.device_name with
  | Option.none => Except.error PyErr.attributeError
  | Option.some device =>
      let nb0 : PyDict :=
        [("device", optIntVal device.remote_id), ("name", PyVal.str self.name)]
      let nb4 := tr_switchport attrs (tr_description attrs (tr_mtu attrs (tr_type attrs nb0)))
      match tr_vlans import_vlans ds attrs nb4 with
      | Except.error e => Except.error e
      | Except.ok nb5 => tr_lag ds attrs nb5

/-! ## Apply operations -/

/-- Base-class `super().create(**ids, dsync=dsync, **attrs)` for an interface.
Modelled from the spec: entities are instantiated by the diff engine with
identity plus desired attributes before any remote call, with the remote
identifier unset until creation succeeds (the DSync base class is an
external collaborator, not part of this adapter's source). -/
def NetboxInterface.base_create (deviceName intfName : String) (attrs : PyDict) :
    NetboxInterface :=
  { device_name := deviceName, name := intfName, remote_id := Option.none,
    connected_endpoint_type := Option.none, ips := [], attrs := attrs }

/-- Method `NetboxInterface.create`: instantiate the local entity, translate the
attributes, issue the remote create and record the assigned remote id. -/
def NetboxInterface.create (import_vlans : String) (ds : DSync)
    (deviceName intfName : String) (attrs : PyDict) (new_id : Int) :
    Except PyErr (OpResult NetboxInterface) :=
  let item := NetboxInterface.base_create deviceName intfName attrs
  match item.translate_attrs_for_netbox import_vlans ds attrs with
  | Except.error e => Except.error e
  | Except.ok nb_params =>
      Except.ok
        { result := { item with remote_id := Option.some new_id },
          calls := [RemoteCall.intfCreate nb_params],
          logs := [LogEvent.debug "Created interface in NetBox"] }

/-- Method `NetboxInterface.update`: when the candidate attribute set equals the
recorded one (`get_attrs()`), return `self` with no remote call; otherwise
translate, fetch and update the remote object, and commit the candidate
attributes locally (`super().update(attrs)`, an external-collaborator
step: "commit the candidate attributes locally" per the contract). -/
def NetboxInterface.update (import_vlans : String) (ds : DSync)
    (self : NetboxInterface) (attrs : PyDict) : Except PyErr (OpResult NetboxInterface) :=
  let current_attrs := self.attrs
  if dictEq attrs current_attrs then
    Except.ok { result := self, calls := [], logs := [] }
  else
    match self.translate_attrs_for_netbox import_vlans ds attrs with
    | Except.error e => Except.error e
    | Except.ok nb_params =>
        Except.ok
          { result := { self with attrs := attrs },
            calls := [RemoteCall.intfGet self.remote_id,
                      RemoteCall.intfUpdate self.remote_id nb_params],
            logs := [LogEvent.info "Updated Interface in NetBox"] }

/-- Method `NetboxInterface.delete`: when the interface carries IPs and the
owning device's primary IP is among them, warn and return `self` with no
remote call; otherwise fetch and delete the remote object.  The device
Context lookup is dereferenced without a `None` check. -/
def NetboxInterface.delete (ds : DSync) (self : NetboxInterface) :
    Except PyErr (OpResult NetboxInterface) :=
  let proceed : OpResult NetboxInterface :=
    { result := self,
      calls := [RemoteCall.intfGet self.remote_id, RemoteCall.intfDelete self.remote_id],
      logs := [] }
  if !self.ips.isEmpty then
    match ds.getDevice self.device_name with
    | Option.none => Except.error PyErr.attributeError
    | Option.some dev =>
        if optStrTruthy dev.primary_ip &&
           (match dev.primary_ip with
            | Option.some p => self.ips.contains p
            | Option.none => false) then
          Except.ok
            { result := self, calls := [],
              logs := [LogEvent.warning "Unable to delete interface, management interface"] }
        else Except.ok proceed
  else Except.ok proceed

/-- Method `NetboxIPAddress.delete`: when the address has an owning device and
equals that device's primary IP, warn and return `self` with no remote
call; otherwise fetch and delete the remote object. -/
def NetboxIPAddress.delete (ds : DSync) (self : NetboxIPAddress) :
    Except PyErr (OpResult NetboxIPAddress) :=
  let proceed : OpResult NetboxIPAddress :=
    { result := self,
      calls := [RemoteCall.ipGet self.remote_id, RemoteCall.ipDelete self.remote_id],
      logs := [] }
  if optStrTruthy self.device_name then
    match ds.getDevice (self.device_name.getD "") with
    | Option.none => Except.error PyErr.attributeError
    | Option.some dev =>
        if dev.primary_ip == Option.some self.address then
          Except.ok
            { result := self, calls := [],
              logs := [LogEvent.warning "Unable to delete IP Address, management IP address"] }
        else Except.ok proceed
  else Except.ok proceed

/-- The VLAN name sent on creation: `attrs["name"]` when present and
truthy, else the deterministic default built from the vid. -/
def NetboxVlan.vlan_name (attrs : PyDict) (vid : Int) : PyVal :=
  match dictLookup attrs "name" with
  | Option.some v => if v.truthy then v else PyVal.str ("vlan-" ++ toString vid)
  | Option.none => PyVal.str ("vlan-" ++ toString vid)

/-- Method `NetboxVlan.create`: resolve the site (its remote id is dereferenced
without a `None` check), compute the name, and issue the remote create.
A pynetbox `RequestError` raised by the create call (`remote_raises`) is
caught: warn and return the failure sentinel `False` (modelled as
`Option.none`), registering no entity and recording no remote id.
Otherwise register the entity (`super().create`) with the assigned id. -/
def NetboxVlan.create (ds : DSync) (siteName : String) (vid : Int) (attrs : PyDict)
    (remote_raises : Bool) (new_id : Int) : Except PyErr (OpResult (Option NetboxVlan)) :=
  let vlanName := NetboxVlan.vlan_name attrs vid
  match ds.getSite siteName with
  | Option.none => Except.error PyErr.attributeError
  | Option.some site =>
      if remote_raises then
        Except.ok
          { result := Option.none,
            calls := [RemoteCall.vlanCreate vid vlanName site.remote_id],
            logs := [LogEvent.warning "Unable to create Vlan"] }
      else
        Except.ok
          { result := Option.some
              { site_name := siteName, vid := vid,
                remote_id := Option.some new_id, attrs := attrs },
            calls := [RemoteCall.vlanCreate vid vlanName site.remote_id],
            logs := [] }

/-- Method `NetboxVlan.update`: unconditionally fetch the remote object and push
`data=\x7b"name": attrs["name"]\x7d` (a `KeyError` when `name` is absent),
then commit the candidate attributes (`super().update(attrs)`).  There is
no equal-attributes guard. -/
def NetboxVlan.update (self : NetboxVlan) (attrs : PyDict) :
    Except PyErr (OpResult NetboxVlan) :=
  match dictLookup attrs "name" with
  | Option.none => Except.error PyErr.keyError
  | Option.some nameVal =>
      Except.ok
        { result := { self with attrs := attrs },
          calls := [RemoteCall.vlanGet self.remote_id,
                    RemoteCall.vlanUpdate self.remote_id [("name", nameVal)]],
          logs := [] }

/-- Outcome of `NetboxCable.create`: the Python return value (`None`
models the `False` failure sentinel), the traces, and the registry as
left by the operation (the connected-endpoint markers it may set). -/
structure CableCreateOut where
  result : Option NetboxCable
  calls : List RemoteCall
  logs : List LogEvent
  ds : DSync
  deriving DecidableEq

/-- Method `NetboxCable.create`: resolve both endpoint interfaces from the
Context; the fallback `get_intf_from_netbox` runs for endpoint a when it
is missing, and — only `elif` — for endpoint z when a was found.  Fail
(sentinel, no exception) when an endpoint is still unresolved; refuse
(sentinel, info log, no remote create) when a resolved endpoint's
connected-endpoint marker is truthy; a `RequestError` from the remote
create is caught into a warn-and-sentinel outcome.  On success, set both
endpoints' markers in the registry and register the cable with the
assigned remote id. -/
def NetboxCable.create (ds : DSync)
    (device_a_name interface_a_name device_z_name interface_z_name : String)
    (_attrs : PyDict) (remote_raises : Bool) (new_id : Int) : CableCreateOut :=
  let lookupA := ds.getInterface device_a_name interface_a_name
  let lookupZ := ds.getInterface device_z_name interface_z_name
  let resolved : Option NetboxInterface × Option NetboxInterface × List RemoteCall :=
    match lookupA, lookupZ with
    | Option.none, _ =>
        (ds.get_intf_from_netbox device_a_name interface_a_name, lookupZ,
         [RemoteCall.intfFromNetbox device_a_name interface_a_name])
    | Option.some ia, Option.none =>
        (Option.some ia, ds.get_intf_from_netbox device_z_name interface_z_name,
         [RemoteCall.intfFromNetbox device_z_name interface_z_name])
    | Option.some ia, Option.some iz => (Option.some ia, Option.some iz, [])
  let interface_a := resolved.1
  let interface_z := resolved.2.1
  let fallbackCalls := resolved.2.2
  match interface_a, interface_z with
  | Option.none, _ =>
      { result := Option.none, calls := fallbackCalls, logs := [], ds := ds }
  | Option.some _, Option.none =>
      { result := Option.none, calls := fallbackCalls, logs := [], ds := ds }
  | Option.some ia, Option.some iz =>
      if optStrTruthy ia.connected_endpoint_type then
        { result := Option.none, calls := fallbackCalls,
          logs := [LogEvent.info "Unable to create Cable, port a is already connected"],
          ds := ds }
      else if optStrTruthy iz.connected_endpoint_type then
        { result := Option.none, calls := fallbackCalls,
          logs := [LogEvent.info "Unable to create Cable, port z is already connected"],
          ds := ds }
      else if remote_raises then
        { result := Option.none,
          calls := fallbackCalls ++ [RemoteCall.cableCreate ia.remote_id iz.remote_id],
          logs := [LogEvent.warning "Unable to create Cable"], ds := ds }
      else
        { result := Option.some
            { device_a_name := device_a_name, interface_a_name := interface_a_name,
              device_z_name := device_z_name, interface_z_name := interface_z_name,
              remote_id := Option.some new_id },
          calls := fallbackCalls ++ [RemoteCall.cableCreate ia.remote_id iz.remote_id],
          logs := [LogEvent.info "Created Cable in NetBox"],
          ds := (ds.setConnectedEndpoint device_a_name interface_a_name).setConnectedEndpoint
                  device_z_name interface_z_name }

/-- Method `NetboxCable.delete`: no protective check; fetch the remote cable by
the local entity's remote id, delete it, and return the fetched remote
record (`return cable` — not `self`, despite the docstring). -/
def NetboxCable.delete (self : NetboxCable) : OpResult RemoteCableRecord :=
  { result := { id := self.remote_id },
    calls := [RemoteCall.cableGet self.remote_id, RemoteCall.cableDelete self.remote_id],
    logs := [] }

/-! ## Dictionary and registry lemmas -/

theorem dictLookup_set_self (d : PyDict) (k : String) (v : PyVal) :
    dictLookup (dictSet d k v) k = Option.some v := by
  induction d with
  | nil => simp [dictSet, dictLookup]
  | cons kv rest ih =>
      obtain ⟨k', v'⟩ := kv
      by_cases h : k' = k
      · simp [dictSet, dictLookup, h]
      · simp [dictSet, dictLookup, h, ih]

theorem dictLookup_set_ne (d : PyDict) (k : String) (v : PyVal) (k' : String)
    (h : k' ≠ k) : dictLookup (dictSet d k v) k' = dictLookup d k' := by
  have h' : k ≠ k' := Ne.symm h
  induction d with
  | nil => simp [dictSet, dictLookup, h']
  | cons kv rest ih =>
      obtain ⟨k0, v0⟩ := kv
      by_cases h0 : k0 = k
      · subst h0
        simp [dictSet, dictLookup, h']
      · by_cases h1 : k0 = k'
        · simp [dictSet, dictLookup, h0, h1, h]
        · simp [dictSet, dictLookup, h0, h1, ih]

theorem assocLookup_modify_self {κ α : Type} [DecidableEq κ]
    (l : List (κ × α)) (key : κ) (f : α → α) :
    assocLookup (assocModify l key f) key = (assocLookup l key).map f := by
  induction l with
  | nil => simp [assocModify, assocLookup]
  | cons kv rest ih =>
      obtain ⟨k, a⟩ := kv
      by_cases h : k = key
      · simp [assocModify, assocLookup, h]
      · simp [assocModify, assocLookup, h, ih]

theorem assocLookup_modify_ne {κ α : Type} [DecidableEq κ]
    (l : List (κ × α)) (key : κ) (f : α → α) (key' : κ) (h : key' ≠ key) :
    assocLookup (assocModify l key f) key' = assocLookup l key' := by
  have h' : key ≠ key' := Ne.symm h
  induction l with
  | nil => simp [assocModify, assocLookup]
  | cons kv rest ih =>
      obtain ⟨k, a⟩ := kv
      by_cases h0 : k = key
      · subst h0
        simp [assocModify, assocLookup, h']
      · by_cases h1 : k = key'
        · simp [assocModify, assocLookup, h0, h1, h]
        · simp [assocModify, assocLookup, h0, h1, ih]

theorem dictHasKey_of_truthy (d : PyDict) (k : String)
    (h : dictTruthy d k = true) : dictHasKey d k = true := by
  unfold dictTruthy at h
  unfold dictHasKey
  cases hl : dictLookup d k with
  | none => rw [hl] at h; exact absurd h (by simp)
  | some v => simp

/-! ## Translator step lemmas -/

theorem tr_type_lookup (attrs p : PyDict) :
    dictLookup (tr_type attrs p) "type" = Option.some (PyVal.str
      (if dictTruthy attrs "is_lag" then "lag"
       else if dictTruthy attrs "is_virtual" then "virtual"
       else "other")) := by
  unfold tr_type
  by_cases h1 : dictTruthy attrs "is_lag" = true
  · simp [h1, dictHasKey_of_truthy attrs "is_lag" h1, dictLookup_set_self]
  · by_cases h2 : dictTruthy attrs "is_virtual" = true
    · simp [h1, h2, dictHasKey_of_truthy attrs "is_virtual" h2, dictLookup_set_self]
    · simp [h1, h2, dictLookup_set_self]

theorem tr_mtu_pres (attrs p : PyDict) (k : String) (h : k ≠ "mtu") :
    dictLookup (tr_mtu attrs p) k = dictLookup p k := by
  unfold tr_mtu
  cases dictLookup attrs "mtu" with
  | none => rfl
  | some v => exact dictLookup_set_ne p "mtu" v k h

theorem tr_description_pres (attrs p : PyDict) (k : String) (h : k ≠ "description") :
    dictLookup (tr_description attrs p) k = dictLookup p k := by
  unfold tr_description
  cases dictLookup attrs "description" with
  | none => rfl
  | some v => exact dictLookup_set_ne p "description" _ k h

theorem tr_switchport_pres (attrs p : PyDict) (k : String)
    (h1 : k ≠ "mode") (h2 : k ≠ "switchport_mode") :
    dictLookup (tr_switchport attrs p) k = dictLookup p k := by
  unfold tr_switchport
  by_cases c1 : dictLookup attrs "switchport_mode" == Option.some (PyVal.str "ACCESS")
  · simp [c1, dictLookup_set_ne p "mode" _ k h1]
  · by_cases c2 : dictLookup attrs "switchport_mode" == Option.some (PyVal.str "TRUNK")
    · simp [c1, c2, dictLookup_set_ne p "switchport_mode" _ k h2]
    · simp [c1, c2]

theorem tr_untagged_pres (ds : DSync) (attrs p q : PyDict) (k : String)
    (hq : tr_untagged ds attrs p = Except.ok q) (h : k ≠ "untagged_vlan") :
    dictLookup q k = dictLookup p k := by
  unfold tr_untagged at hq
  split at hq
  · split at hq
    · exact absurd hq (by simp)
    · split at hq
      · cases hq
        exact dictLookup_set_ne p "untagged_vlan" _ k h
      · cases hq
        exact dictLookup_set_ne p "untagged_vlan" _ k h
  · cases hq
    rfl

theorem tr_tagged_pres (ds : DSync) (attrs p q : PyDict) (k : String)
    (hq : tr_tagged ds attrs p = Except.ok q) (h : k ≠ "tagged_vlans") :
    dictLookup q k = dictLookup p k := by
  unfold tr_tagged at hq
  split at hq
  · split at hq
    · split at hq
      · split at hq
        · cases hq
          exact dictLookup_set_ne p "tagged_vlans" _ k h
        · exact absurd hq (by simp)
      · cases hq
        exact dictLookup_set_ne p "tagged_vlans" _ k h
    · cases hq
      exact dictLookup_set_ne p "tagged_vlans" _ k h
  · cases hq
    rfl

theorem tr_vlans_pres (iv : String) (ds : DSync) (attrs p q : PyDict) (k : String)
    (hq : tr_vlans iv ds attrs p = Except.ok q)
    (h1 : k ≠ "untagged_vlan") (h2 : k ≠ "tagged_vlans") :
    dictLookup q k = dictLookup p k := by
  unfold tr_vlans at hq
  split at hq
  · split at hq
    · exact absurd hq (by simp)
    · rename_i p1 hu
      calc dictLookup q k = dictLookup p1 k := tr_tagged_pres ds attrs p1 q k hq h2
        _ = dictLookup p k := tr_untagged_pres ds attrs p p1 k hu h1
  · cases hq
    rfl

theorem tr_lag_pres (ds : DSync) (attrs p q : PyDict) (k : String)
    (hq : tr_lag ds attrs p = Except.ok q) (h : k ≠ "lag") :
    dictLookup q k = dictLookup p k := by
  unfold tr_lag at hq
  split at hq
  · split at hq
    · exact absurd hq (by simp)
    · split at hq
      · exact absurd hq (by simp)
      · cases hq
        exact dictLookup_set_ne p "lag" _ k h
  · split at hq
    · cases hq
      exact dictLookup_set_ne p "lag" _ k h
    · cases hq
      rfl

theorem tr_vlans_mode_absent (iv : String) (ds : DSync) (attrs p : PyDict)
    (hmode : dictLookup attrs "mode" = Option.none) :
    tr_vlans iv ds attrs p = Except.ok p := by
  unfold tr_vlans tr_untagged tr_tagged
  by_cases hiv : iv = "no"
  · simp [hiv]
  · simp [hiv, hmode]

/-! ## Claim theorems -/

/-- Claim C9: whenever the translator succeeds, the `type` parameter is
`"lag"` when `is_lag` is true, else `"virtual"` when `is_virtual` is
true, else the generic default `"other"` — in that priority order,
irrespective of the remaining attributes. -/
theorem claim_C9 (iv : String) (ds : DSync) (self : NetboxInterface)
    (attrs ps : PyDict)
    (h : self.translate_attrs_for_netbox iv ds attrs = Except.ok ps) :
    dictLookup ps "type" = Option.some (PyVal.str
      (if dictTruthy attrs "is_lag" then "lag"
       else if dictTruthy attrs "is_virtual" then "virtual"
       else "other")) := by
  unfold NetboxInterface.translate_attrs_for_netbox at h
  cases hdev : ds.getDevice self.device_name with
  | none => rw [hdev] at h; exact absurd h (by simp)
  | some device =>
      rw [hdev] at h
      simp only [] at h
      cases hv : tr_vlans iv ds attrs
          (tr_switchport attrs (tr_description attrs (tr_mtu attrs (tr_type attrs
            [("device", optIntVal device.remote_id), ("name", PyVal.str self.name)])))) with
      | error e => rw [hv] at h; exact absurd h (by simp)
      | ok nb5 =>
          rw [hv] at h
          have hlag := tr_lag_pres ds attrs nb5 ps "type" h (by decide)
          have hvl := tr_vlans_pres iv ds attrs _ nb5 "type" hv (by decide) (by decide)
          rw [hlag, hvl,
            tr_switchport_pres attrs _ "type" (by decide) (by decide),
            tr_description_pres attrs _ "type" (by decide),
            tr_mtu_pres attrs _ "type" (by decide),
            tr_type_lookup attrs _]

def dev9 : NetboxDevice :=
  { name := "d1", remote_id := Option.some 1, primary_ip := Option.none }

def ds9 : DSync :=
  { name := "netbox", sites := [], devices := [("d1", dev9)], vlans := [],
    interfaces := [], interfacesByUid := [], netboxInterfaces := [] }

def self9 : NetboxInterface :=
  { device_name := "d1", name := "eth0", remote_id := Option.none,
    connected_endpoint_type := Option.none, ips := [], attrs := [] }

def attrs9 : PyDict := [("is_lag", PyVal.bool true), ("is_virtual", PyVal.bool true)]

def ps9 : PyDict :=
  [("device", PyVal.int 1), ("name", PyVal.str "eth0"), ("type", PyVal.str "lag")]

/-- Witness for C9: a concrete interface with both `is_lag` and
`is_virtual` true translates with `type="lag"`. -/
theorem claim_C9_witness :
    self9.translate_attrs_for_netbox "no" ds9 attrs9 = Except.ok ps9 ∧
    dictLookup ps9 "type" = Option.some (PyVal.str
      (if dictTruthy attrs9 "is_lag" then "lag"
       else if dictTruthy attrs9 "is_virtual" then "virtual"
       else "other")) :=
  ⟨by rfl, claim_C9 "no" ds9 self9 attrs9 ps9 (by rfl)⟩

/-- Claim C10: with `is_lag_member` truthy and a `parent` identifier that
the Context cannot resolve, the translator dereferences the `None` lookup
and raises (`AttributeError`); the enclosing create, and update with a
changed attribute set, propagate the exception instead of skipping the
LAG field or returning a failure sentinel.  (The `mode` key is absent so
no earlier `KeyError` can fire; the owning device is resolvable.) -/
theorem claim_C10 (iv : String) (ds : DSync) (dn n : String) (attrs : PyDict)
    (par : PyVal) (dev : NetboxDevice)
    (hdev : ds.getDevice dn = Option.some dev)
    (hmem : dictTruthy attrs "is_lag_member" = true)
    (hpar : dictLookup attrs "parent" = Option.some par)
    (hun : ds.getInterfaceByUid par = Option.none)
    (hmode : dictLookup attrs "mode" = Option.none) :
    (∀ self : NetboxInterface, self.device_name = dn →
       self.translate_attrs_for_netbox iv ds attrs = Except.error PyErr.attributeError) ∧
    (∀ new_id : Int, NetboxInterface.create iv ds dn n attrs new_id =
       Except.error PyErr.attributeError) ∧
    (∀ self : NetboxInterface, self.device_name = dn → dictEq attrs self.attrs = false →
       NetboxInterface.update iv ds self attrs = Except.error PyErr.attributeError) := by
  have htr : ∀ self : NetboxInterface, self.device_name = dn →
      self.translate_attrs_for_netbox iv ds attrs = Except.error PyErr.attributeError := by
    intro self hself
    unfold NetboxInterface.translate_attrs_for_netbox
    rw [hself, hdev]
    simp only []
    rw [tr_vlans_mode_absent iv ds attrs _ hmode]
    unfold tr_lag
    simp [hmem, dictHasKey_of_truthy attrs "is_lag_member" hmem, hpar, hun]
  refine ⟨htr, ?_, ?_⟩
  · intro new_id
    unfold NetboxInterface.create
    simp only [htr (NetboxInterface.base_create dn n attrs) rfl]
  · intro self hself hne
    unfold NetboxInterface.update
    simp only [hne]
    rw [htr self hself]
    simp

def attrs10 : PyDict :=
  [("is_lag_member", PyVal.bool true), ("parent", PyVal.str "d1__po1")]

def self10 : NetboxInterface :=
  { device_name := "d1", name := "eth1", remote_id := Option.some 4,
    connected_endpoint_type := Option.none, ips := [], attrs := [] }

/-- Witness for C10: a concrete LAG member whose parent `d1__po1` is not
registered in the Context makes translate, create and update raise. -/
theorem claim_C10_witness :
    self10.translate_attrs_for_netbox "no" ds9 attrs10 =
      Except.error PyErr.attributeError ∧
    NetboxInterface.create "no" ds9 "d1" "eth1" attrs10 7 =
      Except.error PyErr.attributeError ∧
    NetboxInterface.update "no" ds9 self10 attrs10 =
      Except.error PyErr.attributeError :=
  ⟨(claim_C10 "no" ds9 "d1" "eth1" attrs10 (PyVal.str "d1__po1") dev9
      rfl rfl rfl rfl rfl).1 self10 rfl,
   (claim_C10 "no" ds9 "d1" "eth1" attrs10 (PyVal.str "d1__po1") dev9
      rfl rfl rfl rfl rfl).2.1 7,
   (claim_C10 "no" ds9 "d1" "eth1" attrs10 (PyVal.str "d1__po1") dev9
      rfl rfl rfl rfl rfl).2.2 self10 rfl (by rfl)⟩

/-- Claim C1 (amended): `NetboxInterface.update` with a candidate
attribute set equal to the recorded one returns the entity unchanged and
issues no remote call; `NetboxVlan.update` has no such guard and always
issues the remote get and the name-pushing update, even when the
candidate equals the recorded attribute set. -/
theorem claim_C1_amended :
    (∀ (iv : String) (ds : DSync) (self : NetboxInterface) (attrs : PyDict),
        dictEq attrs self.attrs = true →
        NetboxInterface.update iv ds self attrs =
          Except.ok { result := self, calls := [], logs := [] }) ∧
    (∀ (self : NetboxVlan) (attrs : PyDict) (v : PyVal),
        dictLookup attrs "name" = Option.some v →
        NetboxVlan.update self attrs =
          Except.ok { result := { self with attrs := attrs },
                      calls := [RemoteCall.vlanGet self.remote_id,
                                RemoteCall.vlanUpdate self.remote_id [("name", v)]],
                      logs := [] }) := by
  constructor
  · intro iv ds self attrs h
    unfold NetboxInterface.update
    simp [h]
  · intro self attrs v h
    unfold NetboxVlan.update
    rw [h]

def vlan0 : NetboxVlan :=
  { site_name := "nyc", vid := 10, remote_id := Option.some 5,
    attrs := [("name", PyVal.str "red")] }

/-- Counterexample to C1 as stated: a `NetboxVlan.update` whose candidate
attribute set equals the recorded one still issues a remote get and a
remote update. -/
theorem claim_C1_cex :
    dictEq [("name", PyVal.str "red")] vlan0.attrs = true ∧
    NetboxVlan.update vlan0 [("name", PyVal.str "red")] =
      Except.ok { result := vlan0,
                  calls := [RemoteCall.vlanGet (Option.some 5),
                            RemoteCall.vlanUpdate (Option.some 5)
                              [("name", PyVal.str "red")]],
                  logs := [] } ∧
    [RemoteCall.vlanGet (Option.some 5),
     RemoteCall.vlanUpdate (Option.some 5) [("name", PyVal.str "red")]] ≠
      ([] : List RemoteCall) :=
  ⟨by rfl, by rfl, by simp⟩

def intf0 : NetboxInterface :=
  { device_name := "d1", name := "eth0", remote_id := Option.some 2,
    connected_endpoint_type := Option.none, ips := [],
    attrs := [("mtu", PyVal.int 1500)] }

/-- Witness for the amended C1: a concrete interface update with an equal
candidate set is a silent no-op, and a concrete VLAN update with an equal
candidate set still issues both remote calls. -/
theorem claim_C1_amended_witness :
    NetboxInterface.update "no" ds9 intf0 [("mtu", PyVal.int 1500)] =
      Except.ok { result := intf0, calls := [], logs := [] } ∧
    NetboxVlan.update vlan0 [("name", PyVal.str "red")] =
      Except.ok { result := { vlan0 with attrs := [("name", PyVal.str "red")] },
                  calls := [RemoteCall.vlanGet vlan0.remote_id,
                            RemoteCall.vlanUpdate vlan0.remote_id
                              [("name", PyVal.str "red")]],
                  logs := [] } :=
  ⟨claim_C1_amended.1 "no" ds9 intf0 [("mtu", PyVal.int 1500)] (by rfl),
   claim_C1_amended.2 vlan0 [("name", PyVal.str "red")] (PyVal.str "red") (by rfl)⟩

/-- Claim C2: deleting an Interface whose IP set contains the owning
device's designated primary IP, or an IPAddress equal to its owning
device's primary IP, logs a warning and returns the entity with no remote
call.  (The designated primary IP is a non-empty string; the owning
device resolves in the Context.) -/
theorem claim_C2 :
    (∀ (ds : DSync) (self : NetboxInterface) (dev : NetboxDevice) (p : String),
       ds.getDevice self.device_name = Option.some dev →
       dev.primary_ip = Option.some p → p ≠ "" →
       self.ips.contains p = true →
       NetboxInterface.delete ds self =
         Except.ok { result := self, calls := [],
                     logs := [LogEvent.warning
                       "Unable to delete interface, management interface"] }) ∧
    (∀ (ds : DSync) (self : NetboxIPAddress) (dev : NetboxDevice) (dn : String),
       self.device_name = Option.some dn → dn ≠ "" →
       ds.getDevice dn = Option.some dev →
       dev.primary_ip = Option.some self.address →
       NetboxIPAddress.delete ds self =
         Except.ok { result := self, calls := [],
                     logs := [LogEvent.warning
                       "Unable to delete IP Address, management IP address"] }) := by
  constructor
  · intro ds self dev p hdev hp hpne hmem
    have hips : self.ips.isEmpty = false := by
      cases h : self.ips with
      | nil => rw [h] at hmem; exact absurd hmem (by simp)
      | cons a l => rfl
    have hpe : p.isEmpty = false := by
      cases h : p.isEmpty with
      | false => rfl
      | true => exact absurd (String.isEmpty_iff p |>.mp h) hpne
    have hmem' : p ∈ self.ips := by simpa using hmem
    unfold NetboxInterface.delete
    rw [hdev]
    simp [hips, hp, optStrTruthy, hpe, hmem']
  · intro ds self dev dn hdn hdne hdev hp
    have hde : dn.isEmpty = false := by
      cases h : dn.isEmpty with
      | false => rfl
      | true => exact absurd (String.isEmpty_iff dn |>.mp h) hdne
    unfold NetboxIPAddress.delete
    rw [hdn]
    simp [optStrTruthy, hde, hdev, hp]

def dev2 : NetboxDevice :=
  { name := "d1", remote_id := Option.some 1, primary_ip := Option.some "10.0.0.1/24" }

def ds2 : DSync :=
  { name := "netbox", sites := [], devices := [("d1", dev2)], vlans := [],
    interfaces := [], interfacesByUid := [], netboxInterfaces := [] }

def mgmtIntf : NetboxInterface :=
  { device_name := "d1", name := "mgmt0", remote_id := Option.some 3,
    connected_endpoint_type := Option.none, ips := ["10.0.0.1/24"], attrs := [] }

def mgmtIp : NetboxIPAddress :=
  { address := "10.0.0.1/24", device_name := Option.some "d1",
    remote_id := Option.some 6 }

/-- Witness for C2: deleting the concrete management interface and the
concrete management IP are warning-only no-ops. -/
theorem claim_C2_witness :
    NetboxInterface.delete ds2 mgmtIntf =
      Except.ok { result := mgmtIntf, calls := [],
                  logs := [LogEvent.warning
                    "Unable to delete interface, management interface"] } ∧
    NetboxIPAddress.delete ds2 mgmtIp =
      Except.ok { result := mgmtIp, calls := [],
                  logs := [LogEvent.warning
                    "Unable to delete IP Address, management IP address"] } :=
  ⟨claim_C2.1 ds2 mgmtIntf dev2 "10.0.0.1/24" rfl rfl (by simp) (by rfl),
   claim_C2.2 ds2 mgmtIp dev2 "d1" rfl (by simp) rfl rfl⟩

/-- Claim C3: with both endpoint interfaces registered and unconnected,
the first cable create succeeds with exactly one remote create call and
marks both endpoints' connected-endpoint markers in the Context; a second
create over the resulting Context for the same two (distinct) interfaces
returns the failure sentinel with no remote call at all. -/
theorem claim_C3 (ds : DSync) (da ian dz izn : String)
    (ia iz : NetboxInterface) (attrs attrs2 : PyDict) (nid nid2 : Int) (r2 : Bool)
    (h1 : ds.getInterface da ian = Option.some ia)
    (h2 : ds.getInterface dz izn = Option.some iz)
    (hca : ia.connected_endpoint_type = Option.none)
    (hcz : iz.connected_endpoint_type = Option.none)
    (hne : (da, ian) ≠ (dz, izn)) :
    (NetboxCable.create ds da ian dz izn attrs false nid).result =
      Option.some { device_a_name := da, interface_a_name := ian,
                    device_z_name := dz, interface_z_name := izn,
                    remote_id := Option.some nid } ∧
    (NetboxCable.create ds da ian dz izn attrs false nid).calls =
      [RemoteCall.cableCreate ia.remote_id iz.remote_id] ∧
    (NetboxCable.create ds da ian dz izn attrs false nid).ds.getInterface da ian =
      Option.some { ia with connected_endpoint_type := Option.some "dcim.interface" } ∧
    (NetboxCable.create ds da ian dz izn attrs false nid).ds.getInterface dz izn =
      Option.some { iz with connected_endpoint_type := Option.some "dcim.interface" } ∧
    (NetboxCable.create (NetboxCable.create ds da ian dz izn attrs false nid).ds
        da ian dz izn attrs2 r2 nid2).result = Option.none ∧
    (NetboxCable.create (NetboxCable.create ds da ian dz izn attrs false nid).ds
        da ian dz izn attrs2 r2 nid2).calls = [] := by
  have hfirst : NetboxCable.create ds da ian dz izn attrs false nid =
      { result := Option.some { device_a_name := da, interface_a_name := ian,
                                device_z_name := dz, interface_z_name := izn,
                                remote_id := Option.some nid },
        calls := [RemoteCall.cableCreate ia.remote_id iz.remote_id],
        logs := [LogEvent.info "Created Cable in NetBox"],
        ds := (ds.setConnectedEndpoint da ian).setConnectedEndpoint dz izn } := by
    unfold NetboxCable.create
    rw [h1, h2]
    simp [hca, hcz, optStrTruthy]
  have hmarkA :
      ((ds.setConnectedEndpoint da ian).setConnectedEndpoint dz izn).getInterface da ian =
        Option.some { ia with connected_endpoint_type := Option.some "dcim.interface" } := by
    unfold DSync.setConnectedEndpoint DSync.getInterface
    rw [assocLookup_modify_ne _ _ _ _ hne]
    rw [assocLookup_modify_self]
    unfold DSync.getInterface at h1
    rw [h1]
    rfl
  have hmarkZ :
      ((ds.setConnectedEndpoint da ian).setConnectedEndpoint dz izn).getInterface dz izn =
        Option.some { iz with connected_endpoint_type := Option.some "dcim.interface" } := by
    unfold DSync.setConnectedEndpoint DSync.getInterface
    rw [assocLookup_modify_self, assocLookup_modify_ne _ _ _ _ (Ne.symm hne)]
    unfold DSync.getInterface at h2
    rw [h2]
    rfl
  have hsecond :
      (NetboxCable.create ((ds.setConnectedEndpoint da ian).setConnectedEndpoint dz izn)
          da ian dz izn attrs2 r2 nid2).result = Option.none ∧
      (NetboxCable.create ((ds.setConnectedEndpoint da ian).setConnectedEndpoint dz izn)
          da ian dz izn attrs2 r2 nid2).calls = [] := by
    unfold NetboxCable.create
    rw [hmarkA, hmarkZ]
    simp [optStrTruthy, show "dcim.interface".isEmpty = false from rfl]
  refine ⟨?_, ?_, ?_, ?_, ?_, ?_⟩
  · rw [hfirst]
  · rw [hfirst]
  · rw [hfirst]; exact hmarkA
  · rw [hfirst]; exact hmarkZ
  · rw [hfirst]; exact hsecond.1
  · rw [hfirst]; exact hsecond.2

def intfA3 : NetboxInterface :=
  { device_name := "d1", name := "eth0", remote_id := Option.some 11,
    connected_endpoint_type := Option.none, ips := [], attrs := [] }

def intfZ3 : NetboxInterface :=
  { device_name := "d2", name := "eth0", remote_id := Option.some 12,
    connected_endpoint_type := Option.none, ips := [], attrs := [] }

def ds3 : DSync :=
  { name := "netbox", sites := [], devices := [], vlans := [],
    interfaces := [(("d1", "eth0"), intfA3), (("d2", "eth0"), intfZ3)],
    interfacesByUid := [], netboxInterfaces := [] }

/-- Witness for C3: the concrete two-interface registry where the first
cable create succeeds and the immediate repeat refuses. -/
theorem claim_C3_witness :
    (NetboxCable.create ds3 "d1" "eth0" "d2" "eth0" [] false 9).result =
      Option.some { device_a_name := "d1", interface_a_name := "eth0",
                    device_z_name := "d2", interface_z_name := "eth0",
                    remote_id := Option.some 9 } ∧
    (NetboxCable.create ds3 "d1" "eth0" "d2" "eth0" [] false 9).calls =
      [RemoteCall.cableCreate intfA3.remote_id intfZ3.remote_id] ∧
    (NetboxCable.create ds3 "d1" "eth0" "d2" "eth0" [] false 9).ds.getInterface
        "d1" "eth0" =
      Option.some { intfA3 with connected_endpoint_type := Option.some "dcim.interface" } ∧
    (NetboxCable.create ds3 "d1" "eth0" "d2" "eth0" [] false 9).ds.getInterface
        "d2" "eth0" =
      Option.some { intfZ3 with connected_endpoint_type := Option.some "dcim.interface" } ∧
    (NetboxCable.create (NetboxCable.create ds3 "d1" "eth0" "d2" "eth0" [] false 9).ds
        "d1" "eth0" "d2" "eth0" [] false 10).result = Option.none ∧
    (NetboxCable.create (NetboxCable.create ds3 "d1" "eth0" "d2" "eth0" [] false 9).ds
        "d1" "eth0" "d2" "eth0" [] false 10).calls = [] :=
  claim_C3 ds3 "d1" "eth0" "d2" "eth0" intfA3 intfZ3 [] [] 9 10 false
    rfl rfl rfl rfl (by simp)

def remIntfA4 : NetboxInterface :=
  { device_name := "d1", name := "eth0", remote_id := Option.some 21,
    connected_endpoint_type := Option.none, ips := [], attrs := [] }

def remIntfZ4 : NetboxInterface :=
  { device_name := "d2", name := "eth0", remote_id := Option.some 22,
    connected_endpoint_type := Option.none, ips := [], attrs := [] }

def ds4 : DSync :=
  { name := "netbox", sites := [], devices := [], vlans := [],
    interfaces := [], interfacesByUid := [],
    netboxInterfaces := [(("d1", "eth0"), remIntfA4), (("d2", "eth0"), remIntfZ4)] }

/-- Claim C4, evaluated at the failing input: both endpoint interfaces
are absent from the Context yet resolvable by the remote fallback, but
cable create runs the fallback only for endpoint a (the `elif` never
reaches endpoint z) and returns the failure sentinel with no remote
create call. -/
theorem claim_C4_eval :
    (ds4.get_intf_from_netbox "d1" "eth0").isSome = true ∧
    (ds4.get_intf_from_netbox "d2" "eth0").isSome = true ∧
    NetboxCable.create ds4 "d1" "eth0" "d2" "eth0" [] false 9 =
      { result := Option.none,
        calls := [RemoteCall.intfFromNetbox "d1" "eth0"],
        logs := [], ds := ds4 } :=
  ⟨by rfl, by rfl, by rfl⟩

/-- Claim C5: when the remote client raises its validation/conflict
error on the VLAN create call, create catches it, logs a warning, and
returns the failure sentinel; no remote identifier is recorded and no
local entity is registered (the `Option.none` result carries neither). -/
theorem claim_C5 (ds : DSync) (siteName : String) (vid : Int) (attrs : PyDict)
    (site : NetboxSite) (new_id : Int)
    (hsite : ds.getSite siteName = Option.some site) :
    NetboxVlan.create ds siteName vid attrs true new_id =
      Except.ok { result := Option.none,
                  calls := [RemoteCall.vlanCreate vid (NetboxVlan.vlan_name attrs vid)
                              site.remote_id],
                  logs := [LogEvent.warning "Unable to create Vlan"] } := by
  unfold NetboxVlan.create
  rw [hsite]
  rfl

def site5 : NetboxSite := { name := "nyc", remote_id := Option.some 3 }

def ds5 : DSync :=
  { name := "netbox", sites := [("nyc", site5)], devices := [], vlans := [],
    interfaces := [], interfacesByUid := [], netboxInterfaces := [] }

/-- Witness for C5: a concrete VLAN create under a raising remote client
returns the failure sentinel with a warning. -/
theorem claim_C5_witness :
    NetboxVlan.create ds5 "nyc" 100 [("name", PyVal.str "blue")] true 8 =
      Except.ok { result := Option.none,
                  calls := [RemoteCall.vlanCreate 100
                              (NetboxVlan.vlan_name [("name", PyVal.str "blue")] 100)
                              site5.remote_id],
                  logs := [LogEvent.warning "Unable to create Vlan"] } :=
  claim_C5 ds5 "nyc" 100 [("name", PyVal.str "blue")] site5 8 rfl

/-- The default VLAN name: a falsy-or-absent `name` attribute yields
`vlan-<vid>`. -/
theorem vlan_name_default (attrs : PyDict) (vid : Int)
    (h : dictTruthy attrs "name" = false) :
    NetboxVlan.vlan_name attrs vid = PyVal.str ("vlan-" ++ toString vid) := by
  unfold NetboxVlan.vlan_name
  unfold dictTruthy at h
  cases hl : dictLookup attrs "name" with
  | none => rfl
  | some v =>
      rw [hl] at h
      simp only [] at h
      simp [h]

/-- Claim C8: VLAN create with no `name` attribute, or a present-but-falsy
one, sends the deterministic default `vlan-<vid>` as the remote `name`
parameter. -/
theorem claim_C8 (ds : DSync) (siteName : String) (vid : Int) (attrs : PyDict)
    (site : NetboxSite) (remote_raises : Bool) (new_id : Int)
    (hsite : ds.getSite siteName = Option.some site)
    (hname : dictTruthy attrs "name" = false) :
    ∃ res logs, NetboxVlan.create ds siteName vid attrs remote_raises new_id =
      Except.ok { result := res,
                  calls := [RemoteCall.vlanCreate vid
                              (PyVal.str ("vlan-" ++ toString vid)) site.remote_id],
                  logs := logs } := by
  unfold NetboxVlan.create
  rw [hsite, vlan_name_default attrs vid hname]
  cases remote_raises with
  | true => exact ⟨Option.none, [LogEvent.warning "Unable to create Vlan"], rfl⟩
  | false =>
      exact ⟨Option.some { site_name := siteName, vid := vid,
                           remote_id := Option.some new_id, attrs := attrs },
             [], rfl⟩

/-- Witness for C8: vid 20 with no name attribute sends `name="vlan-20"`. -/
theorem claim_C8_witness :
    ∃ res logs, NetboxVlan.create ds5 "nyc" 20 [] false 7 =
      Except.ok { result := res,
                  calls := [RemoteCall.vlanCreate 20 (PyVal.str "vlan-20")
                              (Option.some 3)],
                  logs := logs } :=
  claim_C8 ds5 "nyc" 20 [] site5 false 7 rfl rfl

def vlan6 : NetboxVlan :=
  { site_name := "nyc", vid := 10, remote_id := Option.some 123, attrs := [] }

def ds6 : DSync :=
  { name := "netbox", sites := [], devices := [("d1", dev9)],
    vlans := [(PyVal.str "10", vlan6)], interfaces := [], interfacesByUid := [],
    netboxInterfaces := [] }

def self6 : NetboxInterface :=
  { device_name := "d1", name := "eth2", remote_id := Option.none,
    connected_endpoint_type := Option.none, ips := [], attrs := [] }

/-- Counterexample to C6 as stated: with VLAN import enabled and VLAN 10
registered (remote id 123), attributes carrying `switchport_mode="ACCESS"`
and `access_vlan="10"` translate to an output with no `untagged_vlan` key
at all (the VLAN block is keyed on the `mode` attribute, not
`switchport_mode`); and with `access_vlan` absent the output likewise has
no `untagged_vlan` key rather than an explicit null. -/
theorem claim_C6_cex :
    (self6.translate_attrs_for_netbox "yes" ds6
        [("switchport_mode", PyVal.str "ACCESS"),
         ("access_vlan", PyVal.str "10")]).toOption.map
      (fun ps => dictHasKey ps "untagged_vlan") = Option.some false ∧
    (self6.translate_attrs_for_netbox "yes" ds6
        [("switchport_mode", PyVal.str "ACCESS")]).toOption.map
      (fun ps => dictHasKey ps "untagged_vlan") = Option.some false :=
  ⟨by rfl, by rfl⟩

/-- Claim C6 (amended): when VLAN import is enabled, the untagged-VLAN
translation is keyed on the `mode` attribute: with `mode="ACCESS"` and
`access_vlan="10"` the output binds `untagged_vlan` to VLAN 10's remote
identifier (VLAN 10 being registered in the Context); with `access_vlan`
present but falsy the output binds `untagged_vlan` explicitly to null;
with `access_vlan` absent while the mode is access/trunk, translation
raises `KeyError`. -/
theorem claim_C6_amended (iv : String) (ds : DSync) (self : NetboxInterface)
    (dev : NetboxDevice) (v : NetboxVlan) (rid : Int)
    (hiv : iv ≠ "no")
    (hdev : ds.getDevice self.device_name = Option.some dev)
    (hv : ds.getVlan (PyVal.str "10") = Option.some v)
    (hrid : v.remote_id = Option.some rid) :
    self.translate_attrs_for_netbox iv ds
        [("mode", PyVal.str "ACCESS"), ("access_vlan", PyVal.str "10")] =
      Except.ok [("device", optIntVal dev.remote_id), ("name", PyVal.str self.name),
                 ("type", PyVal.str "other"), ("untagged_vlan", PyVal.int rid)] ∧
    self.translate_attrs_for_netbox iv ds
        [("mode", PyVal.str "ACCESS"), ("access_vlan", PyVal.none)] =
      Except.ok [("device", optIntVal dev.remote_id), ("name", PyVal.str self.name),
                 ("type", PyVal.str "other"), ("untagged_vlan", PyVal.none)] ∧
    self.translate_attrs_for_netbox iv ds [("mode", PyVal.str "ACCESS")] =
      Except.error PyErr.keyError := by
  refine ⟨?_, ?_, ?_⟩
  · unfold NetboxInterface.translate_attrs_for_netbox
    rw [hdev]
    simp [tr_type, tr_mtu, tr_description, tr_switchport, tr_vlans, tr_untagged,
      tr_tagged, tr_lag, dictLookup, dictHasKey, dictTruthy, dictSet,
      convert_vlan_to_nid, hv, hrid, hiv, PyVal.truthy, PyScalar.toVal,
      show ("10").isEmpty = false from rfl]
  · unfold NetboxInterface.translate_attrs_for_netbox
    rw [hdev]
    simp [tr_type, tr_mtu, tr_description, tr_switchport, tr_vlans, tr_untagged,
      tr_tagged, tr_lag, dictLookup, dictHasKey, dictTruthy, dictSet, hiv,
      PyVal.truthy]
  · unfold NetboxInterface.translate_attrs_for_netbox
    rw [hdev]
    simp [tr_type, tr_mtu, tr_description, tr_switchport, tr_vlans, tr_untagged,
      tr_tagged, tr_lag, dictLookup, dictHasKey, dictTruthy, dictSet, hiv,
      PyVal.truthy]

/-- Witness for the amended C6: the concrete Context with VLAN 10 at
remote id 123 exercises all three amended branches. -/
theorem claim_C6_amended_witness :
    self6.translate_attrs_for_netbox "yes" ds6
        [("mode", PyVal.str "ACCESS"), ("access_vlan", PyVal.str "10")] =
      Except.ok [("device", optIntVal dev9.remote_id), ("name", PyVal.str self6.name),
                 ("type", PyVal.str "other"), ("untagged_vlan", PyVal.int 123)] ∧
    self6.translate_attrs_for_netbox "yes" ds6
        [("mode", PyVal.str "ACCESS"), ("access_vlan", PyVal.none)] =
      Except.ok [("device", optIntVal dev9.remote_id), ("name", PyVal.str self6.name),
                 ("type", PyVal.str "other"), ("untagged_vlan", PyVal.none)] ∧
    self6.translate_attrs_for_netbox "yes" ds6 [("mode", PyVal.str "ACCESS")] =
      Except.error PyErr.keyError :=
  claim_C6_amended "yes" ds6 self6 dev9 vlan6 123 (by simp) rfl rfl rfl

def cbl7 : NetboxCable :=
  { device_a_name := "d1", interface_a_name := "eth0",
    device_z_name := "d2", interface_z_name := "eth0",
    remote_id := Option.some 7 }

/-- Claim C7, evaluated: cable delete performs no protective check and
always issues the remote get and delete — but it returns the fetched
remote cable record (`return cable`), not the local entity its own
docstring promises. -/
theorem claim_C7_eval :
    NetboxCable.delete cbl7 =
      { result := { id := Option.some 7 },
        calls := [RemoteCall.cableGet (Option.some 7),
                  RemoteCall.cableDelete (Option.some 7)],
        logs := [] } := by rfl
